import Mathlib

/-!
Verification of `src/termlib.py` (class `TerminalContext`).

The embedding is split in two layers that mirror the code:

* a state model of the mode controller (`__init__`, `close`, `cbreak_mode`):
  terminal attributes are an opaque type `α`, the device/handle state carries
  the current attribute set and the `is_cbreak` flag, and the scoped
  `cbreak_mode` context manager is modelled as a higher-order function over a
  body that may finish normally or raise (``Outcome``);

* an oracle-driven trace model of the query engine (`query`, `write`,
  `get_size`, `query_color`): the OS is an oracle answering write
  acceptance, select readiness and read data, and each method is a pure
  function from the oracle to the list of OS calls it performs plus its
  return value.  The byte-level parsers (`int()`, `bytes.split`,
  `bytes.rstrip`, `hex`, `zfill`) are translated from CPython semantics.

Definitions come first, the theorems about the claims follow at the end of
the file.
-/

namespace Termlib

/-- The part of the world `cbreak_mode` reads and writes: the device's current
termios attribute set (opaque type `α`) and the handle's `is_cbreak` flag. -/
structure TermState (α : Type) where
  attrs : α
  is_cbreak : Bool
deriving DecidableEq, Repr

/-- Result of running the body of a `with` scope: normal completion with a
value, or an exception propagating out of the body. -/
inductive Outcome (β : Type) where
  | ok (b : β)
  | exn
deriving DecidableEq, Repr

/-- `TerminalContext.cbreak_mode` (src/termlib.py lines 39-54).
If `is_cbreak` is already set the generator just yields: no snapshot is taken
and no attribute is touched.  Otherwise the current attributes are
snapshotted (`tattr`), `setcbreak` is applied, the flag is set, and the
`finally` block reapplies `tattr` and clears the flag on every exit path of
the body (normal or exceptional); the body's outcome is propagated. -/
def cbreak_mode {α β : Type} (setcbreak : α → α)
    (body : TermState α → TermState α × Outcome β) (s : TermState α) :
    TermState α × Outcome β :=
  if s.is_cbreak then body s
  else
    let tattr := s.attrs
    let res := body ⟨setcbreak s.attrs, true⟩
    (⟨tattr, false⟩, res.2)

/-- The handle fields set in `TerminalContext.__init__` and read by `close`:
descriptor, ownership flag, and the construction-time attribute snapshot
`self._initial_attr`. -/
structure TerminalContext (α : Type) where
  fd : Nat
  close_fd : Bool
  initial_attr : α
deriving DecidableEq, Repr

/-- Whole system state: the mutable device/mode part plus the immutable
handle fields. -/
structure Sys (α : Type) where
  term : TermState α
  ctx : TerminalContext α
deriving DecidableEq, Repr

/-- `TerminalContext.__init__` (lines 13-19): raises `TypeError` (modelled as
`none`) when the descriptor is not a terminal; otherwise stores `close_fd`
and `fd`, clears `is_cbreak`, and snapshots the current device attributes
into `_initial_attr` before any mode mutation. -/
def TerminalContext.init {α : Type} (isatty : Bool) (fd : Nat)
    (close_fd : Bool) (device_attrs : α) : Option (Sys α) :=
  if isatty then
    some ⟨⟨device_attrs, false⟩, ⟨fd, close_fd, device_attrs⟩⟩
  else none

/-- OS actions performed by `TerminalContext.close`. -/
inductive CloseAct (α : Type) where
  | setattr (a : α)
  | closefd (fd : Nat)
deriving DecidableEq, Repr

/-- `TerminalContext.close` (lines 26-29): `tcsetattr(fd, TCSADRAIN,
self._initial_attr)` followed by `os.close(fd)` exactly when `close_fd`. -/
def TerminalContext.close {α : Type} (t : TerminalContext α) :
    List (CloseAct α) :=
  CloseAct.setattr t.initial_attr ::
    (if t.close_fd then [CloseAct.closefd t.fd] else [])

/-- Run one `with self.cbreak_mode(): body` scope on the system state; the
scope only touches the `TermState` part (device attributes and flag). -/
def runScope {α β : Type}
    (op : (α → α) × (TermState α → TermState α × Outcome β)) (s : Sys α) :
    Sys α :=
  ⟨(cbreak_mode op.1 op.2 s.term).1, s.ctx⟩

/-- Run a sequence of cbreak scopes (arbitrary bodies) on the system state. -/
def runScopes {α β : Type}
    (ops : List ((α → α) × (TermState α → TermState α × Outcome β)))
    (s : Sys α) : Sys α :=
  ops.foldl (fun acc op => runScope op acc) s

/-- A concrete scope body that perturbs the attributes and raises. -/
def bodyExn (t : TermState Nat) : TermState Nat × Outcome Nat :=
  (⟨t.attrs + 7, t.is_cbreak⟩, Outcome.exn)

/-! ### Query engine: OS-call trace model

`query`, `write` and `read` talk to the OS through `os.write`, `select` and
`os.read`.  The OS is abstracted as an oracle: `accept k` is how many bytes
the `k`-th `os.write` call of the operation accepts (clamped to the length
of the data passed), `ready` is whether `select` reports the descriptor
readable within the supplied timeout (the timeout value itself only feeds
`select`, so every timeout is covered by quantifying over `ready`), and
`input` is the data available to `os.read`.  Each method yields the list of
OS calls it performs and its return value. -/

/-- One OS call made by the query engine. -/
inductive Ev where
  | evWrite (data : List Nat) (accepted : Nat)
  | evSelect (ready : Bool)
  | evRead (limit : Nat) (data : List Nat)
deriving DecidableEq, Repr

/-- A payload as accepted by `query`/`write`: `str` or `bytes`. -/
inductive PyData where
  | ofStr (s : String)
  | ofBytes (b : List Nat)
deriving DecidableEq, Repr

/-- `s.encode('utf-8')` as a list of byte values. -/
def utf8Encode (s : String) : List Nat :=
  s.toUTF8.toList.map UInt8.toNat

/-- `s if isinstance(s, bytes) else s.encode('utf-8')` (lines 77 and 114). -/
def pyToBytes : PyData → List Nat
  | PyData.ofBytes b => b
  | PyData.ofStr s => utf8Encode s

/-- Bytes actually accepted by the device over a trace: for each `os.write`
call, the accepted prefix of the data passed to it. -/
def transmittedOf : List Ev → List Nat
  | [] => []
  | Ev.evWrite data accepted :: rest => data.take accepted ++ transmittedOf rest
  | _ :: rest => transmittedOf rest

/-- The `os.write` calls of a trace as (data passed, bytes accepted) pairs. -/
def writeCalls : List Ev → List (List Nat × Nat)
  | [] => []
  | Ev.evWrite d a :: rest => (d, a) :: writeCalls rest
  | _ :: rest => writeCalls rest

/-- Whether a trace contains an `os.read` call. -/
def hasRead (evs : List Ev) : Bool :=
  evs.any fun e =>
    match e with
    | Ev.evRead _ _ => true
    | _ => false

/-- `TerminalContext.query` (lines 69-79), inside its cbreak scope: one
`os.write` of the full request (the returned count is ignored, so a partial
acceptance is not retried), one `select` bounded by the timeout, and — only
if `select` reported readiness — one `os.read` of up to 1024 bytes which is
returned; otherwise empty bytes are returned and no error is raised. -/
def query (accept : Nat → Nat) (ready : Bool) (input : List Nat)
    (s : PyData) : List Ev × List Nat :=
  let data := pyToBytes s
  let sent := min (accept 0) data.length
  if ready then
    ([Ev.evWrite data sent, Ev.evSelect ready,
      Ev.evRead 1024 (input.take 1024)], input.take 1024)
  else
    ([Ev.evWrite data sent, Ev.evSelect ready], [])

/-- The retry loop of `TerminalContext.write` (lines 114-118): first
`os.write` unconditionally, then keep dropping the accepted prefix and
rewriting the rest while the last call accepted a nonzero count.  `fuel`
bounds the recursion; `data.length + 1` calls always suffice because every
continuing call accepted at least one byte. -/
def writeLoop (accept : Nat → Nat) : Nat → Nat → List Nat → List Ev
  | 0, _, _ => []
  | fuel + 1, k, data =>
    let sent := min (accept k) data.length
    Ev.evWrite data sent ::
      (if sent = 0 then [] else writeLoop accept fuel (k + 1) (data.drop sent))

/-- `TerminalContext.write` (lines 110-118). -/
def write (accept : Nat → Nat) (s : PyData) : List Ev :=
  writeLoop accept ((pyToBytes s).length + 1) 0 (pyToBytes s)

/-! ### Byte-string primitives

Translations of the CPython operations used by the reply parsers: bytes are
`List Nat`, `str` values are `List Char` or `String`. -/

/-- Codepoints of an ASCII string literal, used to write byte strings. -/
def pyStr (s : String) : List Nat := s.data.map Char.toNat

/-- `l.startswith(p)` on bytes. -/
def startswith (l p : List Nat) : Bool := l.take p.length == p

/-- `l.endswith(p)` on bytes. -/
def endswith (l p : List Nat) : Bool := l.drop (l.length - p.length) == p

/-- `l.rstrip(cs)` on bytes: remove trailing bytes that are in `cs`. -/
def pyRstrip (cs : List Nat) (l : List Nat) : List Nat :=
  (l.reverse.dropWhile (fun c => cs.contains c)).reverse

/-- `l.split(sep)` on bytes with a one-byte separator: always at least one
part, and `b''.split(sep) == [b'']`. -/
def pySplit (sep : Nat) : List Nat → List (List Nat)
  | [] => [[]]
  | c :: rest =>
    if c = sep then [] :: pySplit sep rest
    else
      match pySplit sep rest with
      | [] => [[c]]
      | p :: ps => (c :: p) :: ps

/-- `report[4:-1]`: Python slice from index 4 up to (excluding) the last
byte, empty when the bounds cross. -/
def pySlice4m1 (l : List Nat) : List Nat := (l.take (l.length - 1)).drop 4

/-- The ASCII whitespace bytes stripped by `int()`. -/
def pyIsSpace (c : Nat) : Bool := c = 32 || (9 ≤ c && c ≤ 13)

/-- Strip leading and trailing ASCII whitespace, as `int()` does. -/
def pyStrip (s : List Nat) : List Nat :=
  ((s.dropWhile pyIsSpace).reverse.dropWhile pyIsSpace).reverse

/-- The optional sign in front of an `int()` literal: a leading `'-'` sets
the negative flag, a leading `'+'` is skipped. -/
def pySign (s : List Nat) : Bool × List Nat :=
  match s with
  | [] => (false, [])
  | c :: r =>
    if c = 45 then (true, r)
    else if c = 43 then (false, r)
    else (false, c :: r)

/-- Value of a decimal digit byte. -/
def decDigitVal (c : Nat) : Option Nat :=
  if 48 ≤ c ∧ c ≤ 57 then some (c - 48) else none

/-- Value of a hexadecimal digit byte (both cases). -/
def hexDigitVal (c : Nat) : Option Nat :=
  if 48 ≤ c ∧ c ≤ 57 then some (c - 48)
  else if 97 ≤ c ∧ c ≤ 102 then some (c - 87)
  else if 65 ≤ c ∧ c ≤ 70 then some (c - 55)
  else none

/-- CPython digit scanner for `int(s, base)`: digits with single
underscores allowed only between digits (`lastUnd` forbids an underscore
next, so passing `lastUnd := true` initially also rejects a leading
underscore; after a `0x` prefix a single leading underscore is legal and the
scanner starts with `lastUnd := false`); at least one digit is required and
a trailing underscore is an error. -/
def pyDigitsGo (dv : Nat → Option Nat) (base : Nat) :
    List Nat → Nat → Bool → Bool → Option Nat
  | [], acc, lastUnd, seen => if lastUnd || !seen then none else some acc
  | c :: rest, acc, lastUnd, seen =>
    if c = 95 then
      if lastUnd then none else pyDigitsGo dv base rest acc true seen
    else
      match dv c with
      | some d => pyDigitsGo dv base rest (acc * base + d) false true
      | none => none

/-- The unsigned part of `int(s, base)` for bases 10 and 16: base 16 admits
an optional `0x`/`0X` prefix. -/
def pyIntBody (base16 : Bool) (s : List Nat) : Option Nat :=
  if base16 then
    match s with
    | c0 :: c1 :: r =>
      if c0 = 48 && (c1 = 120 || c1 = 88) then
        pyDigitsGo hexDigitVal 16 r 0 false false
      else pyDigitsGo hexDigitVal 16 (c0 :: c1 :: r) 0 true false
    | _ => pyDigitsGo hexDigitVal 16 s 0 true false
  else pyDigitsGo decDigitVal 10 s 0 true false

/-- `int(s)` / `int(s, 16)` on bytes: strip ASCII whitespace, read an
optional sign, parse the digits; `none` models the `ValueError`. -/
def pyIntCore (base16 : Bool) (s0 : List Nat) : Option Int :=
  let sg := pySign (pyStrip s0)
  match pyIntBody base16 sg.2 with
  | none => none
  | some n => some (if sg.1 then -(n : Int) else (n : Int))

/-- `int(s)` on bytes. -/
def pyInt10 (s : List Nat) : Option Int := pyIntCore false s

/-- `int(s, 16)` on bytes. -/
def pyInt16 (s : List Nat) : Option Int := pyIntCore true s

/-! ### `get_size` (lines 81-108) -/

/-- Request `CSI 18 t` = `'\x1b[18t'` as UTF-8 bytes. -/
def csi18req : List Nat := [27, 91, 49, 56, 116]

/-- Request `CSI 14 t` = `'\x1b[14t'` as UTF-8 bytes. -/
def csi14req : List Nat := [27, 91, 49, 52, 116]

/-- Reply guard `b'\x1b[8;'` for the CSI-18 reply. -/
def csi8head : List Nat := [27, 91, 56, 59]

/-- Reply guard `b'\x1b[4;'` for the CSI-14 reply. -/
def csi4head : List Nat := [27, 91, 52, 59]

/-- `a, b = [int(v) for v in parts]`: both parts must parse and there must
be exactly two of them, otherwise the `ValueError` is caught (`none`). -/
def parseTwoInts (ls : List (List Nat)) : Option (Int × Int) :=
  match ls with
  | [x, y] =>
    match pyInt10 x, pyInt10 y with
    | some a, some b => some (a, b)
    | _, _ => none
  | _ => none

/-- One guarded reply parse of `get_size`: check the 4-byte introducer and
the trailing `t`, then parse `report[4:-1]` split on `b';'` into two
integers; any mismatch yields `none` (the old values are kept). -/
def parseWinReply (head4 : List Nat) (report : List Nat) :
    Option (Int × Int) :=
  if startswith report head4 && endswith report [116] then
    parseTwoInts (pySplit 59 (pySlice4m1 report))
  else none

/-- The ioctl `TIOCGWINSZ` result unpacked as `HHHH` into
(rows, cols, xpixel, ypixel); a failing ioctl (`none`) leaves the four
zero-initialised values. -/
def ioctlVals : Option (Nat × Nat × Nat × Nat) → Int × Int × Int × Int
  | some (r, c, x, y) => ((r : Int), (c : Int), (x : Int), (y : Int))
  | none => (0, 0, 0, 0)

/-- One fallback block of `get_size`: when `cond` holds (a needed value is
zero), issue `req` through `query` and parse the reply, keeping `old` on
parse failure; otherwise issue nothing.  Returns the (possibly updated)
pair and the list of requests issued. -/
def sizeStep (cond : Bool) (old : Int × Int) (req : List Nat)
    (head4 : List Nat) (reply : List Nat → List Nat) :
    (Int × Int) × List (List Nat) :=
  if cond then
    match parseWinReply head4 (reply req) with
    | some p => (p, [req])
    | none => (old, [req])
  else (old, [])

/-- `TerminalContext.get_size`: ioctl first; if rows or cols is zero, query
`CSI 18 t` and parse `(rows, cols)`; if xpixel or ypixel is zero (judged on
the ioctl values), query `CSI 14 t` and parse `(ypixel, xpixel)`; return
`(cols, rows, xpixel, ypixel)` together with the requests issued.  `reply`
maps a request to the bytes `query` returns for it (empty on timeout). -/
def get_size (io : Option (Nat × Nat × Nat × Nat))
    (reply : List Nat → List Nat) :
    (Int × Int × Int × Int) × List (List Nat) :=
  let v := ioctlVals io
  let s1 := sizeStep (v.1 == 0 || v.2.1 == 0) (v.1, v.2.1)
    csi18req csi8head reply
  let s2 := sizeStep (v.2.2.1 == 0 || v.2.2.2 == 0) (v.2.2.2, v.2.2.1)
    csi14req csi4head reply
  ((s1.1.2, s1.1.1, s2.1.2, s2.1.1), s1.2 ++ s2.2)

/-- The reply oracle of the reference examples: `ESC[8;40;120t` to the
CSI-18 query and `ESC[4;800;1600t` to the CSI-14 query. -/
def c5reply : List Nat → List Nat := fun req =>
  if req = csi18req then pyStr "\x1b[8;40;120t"
  else if req = csi14req then pyStr "\x1b[4;800;1600t"
  else []

/-- A terminal answering the CSI-18 query with negative number fields. -/
def c9reply : List Nat → List Nat := fun req =>
  if req = csi18req then pyStr "\x1b[8;-1;-2t" else []

/-! ### `query_color` (lines 130-144) -/

/-- Python exceptions that can escape the modelled code. -/
inductive PyErr where
  | valueError
deriving DecidableEq, Repr

/-- Lowercase hex digit character for a value below 16. -/
def hexDigitChar (n : Nat) : Char :=
  Char.ofNat (if n < 10 then 48 + n else 87 + n)

/-- Hex digits of `n`, most significant first (`fuel`-bounded division). -/
def natToHexGo : Nat → Nat → List Char
  | 0, _ => []
  | fuel + 1, n =>
    if n = 0 then [] else natToHexGo fuel (n / 16) ++ [hexDigitChar (n % 16)]

/-- Hex digits of a natural number, `['0']` for zero. -/
def natToHex (n : Nat) : List Char :=
  if n = 0 then ['0'] else natToHexGo (n + 1) n

/-- Python `hex(n)`: `0x...` with lowercase digits, `-0x...` for negative
values. -/
def pyHex (n : Int) : List Char :=
  if n < 0 then '-' :: '0' :: 'x' :: natToHex (-n).toNat
  else '0' :: 'x' :: natToHex n.toNat

/-- `.zfill(2)` on the output of `hex(_)[2:]` (which never starts with a
sign): left-pad with `'0'` to at least two characters. -/
def zfill2 (s : List Char) : List Char :=
  List.replicate (2 - s.length) '0' ++ s

/-- Python `>>` (arithmetic shift) by 8 bits: floor division by 256. -/
def pyShiftRight8 (n : Int) : Int := Int.fdiv n 256

/-- `hex(v >> 8)[2:].zfill(2)` for one parsed 16-bit channel value. -/
def renderChannel (v : Int) : List Char :=
  zfill2 ((pyHex (pyShiftRight8 v)).drop 2)

/-- `f'#{r}{g}{b}'`. -/
def renderColor (r g b : Int) : String :=
  String.mk ('#' :: (renderChannel r ++ renderChannel g ++ renderChannel b))

/-- `10 if slot == 'fg' else 11 if slot == 'bg' else f'4;{slot}'` rendered
into the request string. -/
def colorValueTag (slot : String) : String :=
  if slot = "fg" then "10" else if slot = "bg" then "11" else "4;" ++ slot

/-- The OSC query `f'\x1b]{value};?\x1b\\'` encoded to bytes. -/
def colorRequest (slot : String) : List Nat :=
  utf8Encode ("\x1b]" ++ colorValueTag slot ++ ";?\x1b\\")

/-- `2 if slot in ('fg', 'bg') else len(f'4;{slot}')`. -/
def colorOffset (slot : String) : Nat :=
  if slot == "fg" || slot == "bg" then 2 else 2 + slot.length

/-- `report[3+offset:].rstrip(b'\x1b\\').rstrip(b'\x07')`. -/
def colorSpecOf (slot : String) (report : List Nat) : List Nat :=
  pyRstrip [7] (pyRstrip [27, 92] (report.drop (3 + colorOffset slot)))

/-- The guard `report.startswith(b'\x1b]') and (report.endswith(b'\x1b\\')
or report.endswith(b'\x07'))`. -/
def structGuard (report : List Nat) : Bool :=
  startswith report [27, 93] &&
    (endswith report [27, 92] || endswith report [7])

/-- `b'rgb:'`. -/
def rgbTag : List Nat := [114, 103, 98, 58]

/-- `r, g, b = [hex(int(v, 16) >> 8)[2:].zfill(2) for v in
spec[4:].split(b'/')]; return f'#{r}{g}{b}'` — the comprehension and the
unpacking are NOT wrapped in try/except, so an unparsable channel or a
split of the wrong arity raises `ValueError`. -/
def parseColorTriple (slot : String) (report : List Nat) :
    Except PyErr (Option String) :=
  match (pySplit 47 ((colorSpecOf slot report).drop 4)).map pyInt16 with
  | [some r, some g, some b] => Except.ok (some (renderColor r g b))
  | _ => Except.error PyErr.valueError

/-- `TerminalContext.query_color`: send the OSC query, then parse the reply
with the two structural guards; a guard failure returns `None`, the channel
parse itself can raise.  `reply` maps the request bytes to what `query`
returns. -/
def query_color (reply : List Nat → List Nat) (slot : String) :
    Except PyErr (Option String) :=
  if structGuard (reply (colorRequest slot)) then
    if startswith (colorSpecOf slot (reply (colorRequest slot))) rgbTag then
      parseColorTriple slot (reply (colorRequest slot))
    else Except.ok none
  else Except.ok none

/-- Both structural guards of `query_color` at once. -/
def colorGuards (slot : String) (report : List Nat) : Bool :=
  structGuard report && startswith (colorSpecOf slot report) rgbTag

/-- A reply passing the structural guards with unparsable channel values. -/
def badColorReport : List Nat := pyStr "\x1b]10;rgb:zz/00/00\x1b\\"

/-! ### Helper lemmas -/

theorem runScopes_ctx {α β : Type}
    (ops : List ((α → α) × (TermState α → TermState α × Outcome β)))
    (s : Sys α) : (runScopes ops s).ctx = s.ctx := by
  induction ops generalizing s with
  | nil => rfl
  | cons op rest ih => simpa [runScopes, runScope] using ih _

theorem writeLoop_transmits_all (accept : Nat → Nat)
    (h1 : ∀ k, 1 ≤ accept k) :
    ∀ fuel data k, data.length < fuel →
      transmittedOf (writeLoop accept fuel k data) = data := by
  intro fuel
  induction fuel with
  | zero => intro data k h; omega
  | succ fuel ih =>
    intro data k h
    cases data with
    | nil => simp [writeLoop, transmittedOf]
    | cons c rest =>
      have hsent : min (accept k) (c :: rest).length ≠ 0 := by
        have := h1 k
        simp only [List.length_cons]
        omega
      have hlt : ((c :: rest).drop
          (min (accept k) (c :: rest).length)).length < fuel := by
        rw [List.length_drop]
        simp only [List.length_cons] at h ⊢
        have := h1 k
        omega
      simp only [writeLoop, if_neg hsent, transmittedOf]
      rw [ih _ _ hlt, List.take_append_drop]

theorem mem_of_mem_dropWhile (p : Nat → Bool) (l : List Nat) (a : Nat)
    (h : a ∈ l.dropWhile p) : a ∈ l := by
  induction l with
  | nil => simp at h
  | cons c rest ih =>
    rw [List.dropWhile_cons] at h
    by_cases hp : p c
    · simp only [hp, if_true] at h
      exact List.mem_cons_of_mem c (ih h)
    · simpa [hp] using h

theorem mem_of_mem_pyStrip (s : List Nat) (a : Nat) (h : a ∈ pyStrip s) :
    a ∈ s := by
  unfold pyStrip at h
  rw [List.mem_reverse] at h
  have h2 := mem_of_mem_dropWhile _ _ _ h
  rw [List.mem_reverse] at h2
  exact mem_of_mem_dropWhile _ _ _ h2

theorem pySign_neg_mem (s : List Nat) (h : (pySign s).1 = true) : 45 ∈ s := by
  unfold pySign at h
  cases s with
  | nil => simp at h
  | cons c r =>
    by_cases h45 : c = 45
    · subst h45; exact List.mem_cons_self _ _
    · by_cases h43 : c = 43 <;> simp [h45, h43] at h

/-- A parsed `int()` value is non-negative when the input byte string
contains no minus sign. -/
theorem pyIntCore_nonneg (b : Bool) (s : List Nat) (n : Int)
    (hm : ¬ 45 ∈ s) (h : pyIntCore b s = some n) : 0 ≤ n := by
  simp only [pyIntCore] at h
  cases hb : pyIntBody b (pySign (pyStrip s)).2 with
  | none => simp [hb] at h
  | some m =>
    simp only [hb, Option.some_inj] at h
    cases hsg : (pySign (pyStrip s)).1 with
    | true => exact absurd (mem_of_mem_pyStrip s 45 (pySign_neg_mem _ hsg)) hm
    | false =>
      simp only [hsg, if_neg Bool.false_ne_true] at h
      exact h ▸ Int.natCast_nonneg m

theorem mem_of_mem_pySplit (sep : Nat) (l : List Nat) :
    ∀ part ∈ pySplit sep l, ∀ a ∈ part, a ∈ l := by
  induction l with
  | nil =>
    intro part hpart a ha
    simp only [pySplit, List.mem_singleton] at hpart
    subst hpart
    simp at ha
  | cons c rest ih =>
    intro part hpart a ha
    simp only [pySplit] at hpart
    by_cases hc : c = sep
    · simp only [hc, if_true] at hpart
      rcases List.mem_cons.mp hpart with h1 | h1
      · subst h1; simp at ha
      · exact List.mem_cons_of_mem c (ih part h1 a ha)
    · simp only [hc, if_false] at hpart
      cases hr : pySplit sep rest with
      | nil =>
        rw [hr] at hpart
        simp only [List.mem_singleton] at hpart
        subst hpart
        rcases List.mem_singleton.mp ha with h1
        subst h1
        exact List.mem_cons_self _ _
      | cons p ps =>
        rw [hr] at hpart
        rcases List.mem_cons.mp hpart with h1 | h1
        · subst h1
          rcases List.mem_cons.mp ha with h2 | h2
          · subst h2; exact List.mem_cons_self _ _
          · refine List.mem_cons_of_mem c (ih p ?_ a h2)
            rw [hr]; exact List.mem_cons_self _ _
        · refine List.mem_cons_of_mem c (ih part ?_ a ha)
          rw [hr]; exact List.mem_cons_of_mem p h1

theorem mem_of_mem_pySlice4m1 (l : List Nat) (a : Nat)
    (h : a ∈ pySlice4m1 l) : a ∈ l := by
  unfold pySlice4m1 at h
  exact ((List.drop_sublist _ _).trans (List.take_sublist _ _)).subset h

theorem parseWinReply_nonneg (head4 report : List Nat) (a b : Int)
    (hm : ¬ 45 ∈ report) (h : parseWinReply head4 report = some (a, b)) :
    0 ≤ a ∧ 0 ≤ b := by
  unfold parseWinReply at h
  by_cases hg : startswith report head4 && endswith report [116]
  · rw [if_pos hg] at h
    rcases hls : pySplit 59 (pySlice4m1 report) with _ | ⟨x, rest⟩
    · rw [hls] at h; simp [parseTwoInts] at h
    rcases rest with _ | ⟨y, rest2⟩
    · rw [hls] at h; simp [parseTwoInts] at h
    rcases rest2 with _ | ⟨z, rest3⟩
    · rw [hls] at h
      simp only [parseTwoInts] at h
      have hx : ¬ 45 ∈ x := fun hmem =>
        hm (mem_of_mem_pySlice4m1 report 45
          (mem_of_mem_pySplit 59 _ x (hls ▸ List.mem_cons_self _ _) 45 hmem))
      have hy : ¬ 45 ∈ y := fun hmem =>
        hm (mem_of_mem_pySlice4m1 report 45
          (mem_of_mem_pySplit 59 _ y
            (hls ▸ List.mem_cons_of_mem x (List.mem_cons_self _ _)) 45 hmem))
      cases hxv : pyInt10 x with
      | none => rw [hxv] at h; simp at h
      | some av =>
        cases hyv : pyInt10 y with
        | none => rw [hxv, hyv] at h; simp at h
        | some bv =>
          rw [hxv, hyv] at h
          simp only [Option.some_inj, Prod.mk.injEq] at h
          exact ⟨h.1 ▸ pyIntCore_nonneg false x av hx hxv,
                 h.2 ▸ pyIntCore_nonneg false y bv hy hyv⟩
    · rw [hls] at h; simp [parseTwoInts] at h
  · rw [if_neg hg] at h
    simp at h

theorem sizeStep_nonneg (cond : Bool) (old : Int × Int) (req : List Nat)
    (head4 : List Nat) (reply : List Nat → List Nat) (h1 : 0 ≤ old.1)
    (h2 : 0 ≤ old.2) (hm : ¬ 45 ∈ reply req) :
    0 ≤ (sizeStep cond old req head4 reply).1.1 ∧
    0 ≤ (sizeStep cond old req head4 reply).1.2 := by
  unfold sizeStep
  cases cond with
  | false => exact ⟨h1, h2⟩
  | true =>
    simp only [if_true]
    cases hp : parseWinReply head4 (reply req) with
    | none => exact ⟨h1, h2⟩
    | some p =>
      obtain ⟨hp1, hp2⟩ := parseWinReply_nonneg head4 (reply req) p.1 p.2 hm
        (by rw [hp])
      exact ⟨hp1, hp2⟩

/-! ### Claims -/

/-- Claim C1: the cbreak scope is a single-flag state machine.  Entering
`cbreak_mode` while `is_cbreak` is already set runs the body on the unchanged
state and performs no snapshot and no attribute change (the scope is the
identity wrapper).  Otherwise, whatever the body does to the state and
however it exits (normal outcome or exception), the exit reapplies the
attribute set snapshotted at entry and clears the flag, propagating the
body's outcome. -/
theorem cbreak_mode_guard_and_restore {α β : Type} (setcbreak : α → α)
    (body : TermState α → TermState α × Outcome β) (s : TermState α) :
    (s.is_cbreak = true → cbreak_mode setcbreak body s = body s) ∧
    (s.is_cbreak = false →
      (cbreak_mode setcbreak body s).1.attrs = s.attrs ∧
      (cbreak_mode setcbreak body s).1.is_cbreak = false ∧
      (cbreak_mode setcbreak body s).2 =
        (body ⟨setcbreak s.attrs, true⟩).2) := by
  constructor
  · intro h
    simp [cbreak_mode, h]
  · intro h
    simp [cbreak_mode, h]

/-- Witness for C1 at concrete inputs: a re-entrant scope is transparent, and
a fresh scope whose body raises still restores attributes 3 and clears the
flag. -/
theorem cbreak_mode_guard_and_restore_witness :
    (cbreak_mode Nat.succ bodyExn ⟨3, true⟩ = bodyExn ⟨3, true⟩) ∧
    ((cbreak_mode Nat.succ bodyExn ⟨3, false⟩).1.attrs = 3 ∧
      (cbreak_mode Nat.succ bodyExn ⟨3, false⟩).1.is_cbreak = false ∧
      (cbreak_mode Nat.succ bodyExn ⟨3, false⟩).2 =
        (bodyExn ⟨Nat.succ 3, true⟩).2) :=
  ⟨(cbreak_mode_guard_and_restore Nat.succ bodyExn ⟨3, true⟩).1 rfl,
   (cbreak_mode_guard_and_restore Nat.succ bodyExn ⟨3, false⟩).2 rfl⟩

/-- Claim C2: after constructing a handle on a terminal with device
attributes `a0` and running any sequence of cbreak scopes (with arbitrary
bodies), `close()` applies exactly the construction-time attribute set `a0`
(never a later cbreak snapshot, which lives only in the scope) and closes
the descriptor if and only if `close_fd` is true; no other handle state is
consulted. -/
theorem close_restores_construction_attrs {α β : Type} (a0 : α) (fd : Nat)
    (cfd : Bool)
    (ops : List ((α → α) × (TermState α → TermState α × Outcome β)))
    (sys : Sys α) (h : TerminalContext.init true fd cfd a0 = some sys) :
    TerminalContext.close (runScopes ops sys).ctx =
      CloseAct.setattr a0 ::
        (if cfd then [CloseAct.closefd fd] else []) ∧
    (CloseAct.closefd fd ∈ TerminalContext.close (runScopes ops sys).ctx ↔
      cfd = true) := by
  have hsys : sys = ⟨⟨a0, false⟩, ⟨fd, cfd, a0⟩⟩ := by
    simpa [TerminalContext.init] using h.symm
  subst hsys
  rw [runScopes_ctx]
  constructor
  · rfl
  · cases cfd <;> simp [TerminalContext.close]

/-- Witness for C2 at concrete inputs: an owned handle on attributes `5`,
descriptor `7`, after one scope whose body mutates attributes and raises. -/
theorem close_restores_construction_attrs_witness :
    TerminalContext.close
        (runScopes [(Nat.succ, bodyExn)]
          (⟨⟨5, false⟩, ⟨7, true, 5⟩⟩ : Sys Nat)).ctx =
      CloseAct.setattr 5 ::
        (if true then [CloseAct.closefd 7] else []) ∧
    (CloseAct.closefd 7 ∈
        TerminalContext.close
          (runScopes [(Nat.succ, bodyExn)]
            (⟨⟨5, false⟩, ⟨7, true, 5⟩⟩ : Sys Nat)).ctx ↔
      true = true) :=
  close_restores_construction_attrs 5 7 true [(Nat.succ, bodyExn)] _ rfl

/-- Claim C3 (confirmed): for every request, every write-acceptance oracle
and every pending-input state, when the descriptor does not become readable
within the timeout (`select` answers not-ready, for whatever timeout value
was supplied) `query` returns empty bytes and its trace contains no
`os.read` call; the timeout is not surfaced as an error (the model is a
total function returning the empty result). -/
theorem query_timeout_returns_empty (accept : Nat → Nat) (input : List Nat)
    (s : PyData) :
    (query accept false input s).2 = [] ∧
    hasRead (query accept false input s).1 = false := by
  constructor <;> rfl

/-- Claim C4 counterexample: the claim states that `query` retries partial
writes until the whole request is sent.  Take the request `b'AB'` and a
device that accepts exactly one byte per `os.write` call (so a retry would
succeed): `query` performs a single write call and only `[65]` reaches the
device — the suffix `[66]` is silently dropped. -/
theorem query_partial_write_not_retried :
    writeCalls (query (fun _ => 1) true [] (PyData.ofBytes [65, 66])).1 =
      [([65, 66], 1)] ∧
    transmittedOf
        (query (fun _ => 1) true [] (PyData.ofBytes [65, 66])).1 = [65] ∧
    transmittedOf
        (query (fun _ => 1) true [] (PyData.ofBytes [65, 66])).1 ≠
      pyToBytes (PyData.ofBytes [65, 66]) := by
  refine ⟨rfl, rfl, ?_⟩
  decide

/-- Claim C4 as amended: `query` issues exactly one `os.write` call, passing
the full request, and does not retry a partial acceptance (only the accepted
prefix reaches the device before the reply wait); the retrying loop lives in
the separate `write` method, which does transmit every byte whenever the
device keeps accepting at least one byte per call. -/
theorem query_single_write_and_write_retries (accept : Nat → Nat)
    (ready : Bool) (input : List Nat) (s : PyData) :
    writeCalls (query accept ready input s).1 =
      [(pyToBytes s, min (accept 0) (pyToBytes s).length)] ∧
    ((∀ k, 1 ≤ accept k) →
      transmittedOf (write accept s) = pyToBytes s) := by
  constructor
  · cases ready <;> rfl
  · intro h1
    exact writeLoop_transmits_all accept h1 _ _ _ (Nat.lt_succ_self _)

/-- Witness for the amended C4 at concrete inputs. -/
theorem query_single_write_and_write_retries_witness :
    writeCalls
        (query (fun _ => 1) false [] (PyData.ofBytes [65, 66])).1 =
      [(pyToBytes (PyData.ofBytes [65, 66]),
        min ((fun _ => 1) 0) (pyToBytes (PyData.ofBytes [65, 66])).length)] ∧
    transmittedOf (write (fun _ => 1) (PyData.ofBytes [65, 66])) =
      pyToBytes (PyData.ofBytes [65, 66]) :=
  ⟨(query_single_write_and_write_retries (fun _ => 1) false []
      (PyData.ofBytes [65, 66])).1,
   (query_single_write_and_write_retries (fun _ => 1) false []
      (PyData.ofBytes [65, 66])).2 (fun _ => Nat.le_refl 1)⟩

/-- Claim C5: with a failing ioctl and the reference replies, `get_size`
extracts rows=40, cols=120 from `ESC[8;40;120t` and ypixel=800, xpixel=1600
from `ESC[4;800;1600t`, and returns them in the external order
(cols, rows, xpixel, ypixel) = (120, 40, 1600, 800). -/
theorem get_size_reference_replies :
    get_size none c5reply = ((120, 40, 1600, 800), [csi18req, csi14req]) := by
  decide

/-- Claim C6: when the ioctl delivers non-zero rows and cols, the CSI-18
query is never issued and the returned cols/rows come straight from the
ioctl; when additionally xpixel or ypixel is zero, exactly the CSI-14 query
is issued; when the ioctl delivers all four non-zero, no query is issued at
all. -/
theorem get_size_fallbacks_fire_independently (r c x y : Nat)
    (reply : List Nat → List Nat) (hr : r ≠ 0) (hc : c ≠ 0) :
    ¬ csi18req ∈ (get_size (some (r, c, x, y)) reply).2 ∧
    (get_size (some (r, c, x, y)) reply).1.1 = (c : Int) ∧
    (get_size (some (r, c, x, y)) reply).1.2.1 = (r : Int) ∧
    ((x = 0 ∨ y = 0) →
      (get_size (some (r, c, x, y)) reply).2 = [csi14req]) ∧
    (x ≠ 0 → y ≠ 0 → (get_size (some (r, c, x, y)) reply).2 = []) := by
  have hcond1 : (((r : Int) == 0) || ((c : Int) == 0)) = false := by
    simp [hr, hc]
  have hs1 : sizeStep (((r : Int) == 0) || ((c : Int) == 0))
      ((r : Int), (c : Int)) csi18req csi8head reply =
      (((r : Int), (c : Int)), []) := by
    rw [hcond1]; rfl
  have hreqs : ∀ cond2 : Bool,
      (sizeStep cond2 ((y : Int), (x : Int)) csi14req csi4head reply).2 =
        if cond2 then [csi14req] else [] := by
    intro cond2
    cases cond2 with
    | false => rfl
    | true =>
      simp only [sizeStep, if_true]
      cases parseWinReply csi4head (reply csi14req) <;> rfl
  refine ⟨?_, ?_, ?_, ?_, ?_⟩
  · simp only [get_size, ioctlVals, hs1, List.nil_append]
    rw [hreqs]
    by_cases hxy : (((x : Int) == 0) || ((y : Int) == 0)) = true
    · rw [hxy]; simp; decide
    · rw [Bool.not_eq_true] at hxy; rw [hxy]; simp
  · simp only [get_size, ioctlVals, hs1]
  · simp only [get_size, ioctlVals, hs1]
  · intro hxy
    have hcond2 : (((x : Int) == 0) || ((y : Int) == 0)) = true := by
      rcases hxy with h0 | h0 <;> subst h0 <;> simp
    simp only [get_size, ioctlVals, hs1, List.nil_append]
    rw [hreqs, hcond2, if_pos rfl]
  · intro hx hy
    have hcond2 : (((x : Int) == 0) || ((y : Int) == 0)) = false := by
      simp [hx, hy]
    simp only [get_size, ioctlVals, hs1, List.nil_append]
    rw [hreqs, hcond2]
    rfl

/-- Witness for C6: ioctl rows=24, cols=80, pixels unknown, silent
terminal. -/
theorem get_size_fallbacks_fire_independently_witness :
    ¬ csi18req ∈ (get_size (some (24, 80, 0, 0)) (fun _ => [])).2 ∧
    (get_size (some (24, 80, 0, 0)) (fun _ => [])).1.1 = ((80 : Nat) : Int) ∧
    (get_size (some (24, 80, 0, 0)) (fun _ => [])).1.2.1 =
      ((24 : Nat) : Int) ∧
    (((0 : Nat) = 0 ∨ (0 : Nat) = 0) →
      (get_size (some (24, 80, 0, 0)) (fun _ => [])).2 = [csi14req]) ∧
    ((0 : Nat) ≠ 0 → (0 : Nat) ≠ 0 →
      (get_size (some (24, 80, 0, 0)) (fun _ => [])).2 = []) :=
  get_size_fallbacks_fire_independently 24 80 0 0 (fun _ => [])
    (by decide) (by decide)

/-- Claim C7: a well-formed OSC-10 reply `ESC]10;rgb:3232/6464/9696` is
parsed by taking the high byte of each 16-bit channel and rendering two
lowercase hex digits, giving `#326496`; the ESC-backslash and BEL
terminators are accepted identically. -/
theorem query_color_reference_reply :
    query_color (fun _ => pyStr "\x1b]10;rgb:3232/6464/9696\x1b\\") "fg" =
      Except.ok (some "#326496") ∧
    query_color (fun _ => pyStr "\x1b]10;rgb:3232/6464/9696\x07") "fg" =
      Except.ok (some "#326496") :=
  ⟨rfl, rfl⟩

/-- Claim C8 counterexample: the reply `ESC]10;rgb:zz/00/00ESC\` passes both
structural guards but `int(b'zz', 16)` raises `ValueError`, which
propagates out of `query_color` instead of becoming `None`. -/
theorem query_color_raises_on_bad_channels :
    query_color (fun _ => badColorReport) "fg" =
      Except.error PyErr.valueError :=
  rfl

/-- Claim C8 as amended: `query_color` returns `None` without raising for
every reply that fails the structural guards — wrong OSC prefix, an
unrecognized terminator, or a stripped payload that does not start with
`rgb:` — but a reply passing all the guards whose channel list is
unparsable or not exactly three entries raises `ValueError` (see the
counterexample). -/
theorem query_color_guard_failure_returns_none (slot : String)
    (reply : List Nat → List Nat)
    (h : colorGuards slot (reply (colorRequest slot)) = false) :
    query_color reply slot = Except.ok none := by
  unfold query_color
  unfold colorGuards at h
  cases hs : structGuard (reply (colorRequest slot)) with
  | false => rw [if_neg Bool.false_ne_true]
  | true =>
    rw [hs, Bool.true_and] at h
    rw [if_pos rfl, if_neg (by rw [h]; exact Bool.false_ne_true)]

/-- Witness for the amended C8: a silent terminal (empty reply). -/
theorem query_color_guard_failure_returns_none_witness :
    query_color (fun _ => []) "fg" = Except.ok none :=
  query_color_guard_failure_returns_none "fg" (fun _ => []) rfl

/-- Claim C9 counterexample: the terminal may answer the CSI-18 query with
`ESC[8;-1;-2t`; `int(b'-1')` and `int(b'-2')` parse fine, so `get_size`
returns cols = -2 < 0, contradicting "each of the four values is a
non-negative integer". -/
theorem get_size_negative_cols :
    (get_size none c9reply).1.1 = -2 ∧ (get_size none c9reply).1.1 < 0 := by
  decide

/-- Claim C9 as amended: each of the four values returned by `get_size` is
non-negative provided no fallback reply contains the ASCII minus sign
(0x2D); a reply carrying a negative decimal field is parsed and propagated,
so the result can be negative.  Zero still denotes "could not be
determined". -/
theorem get_size_nonneg (io : Option (Nat × Nat × Nat × Nat))
    (reply : List Nat → List Nat) (h : ∀ req, ¬ 45 ∈ reply req) :
    0 ≤ (get_size io reply).1.1 ∧ 0 ≤ (get_size io reply).1.2.1 ∧
    0 ≤ (get_size io reply).1.2.2.1 ∧ 0 ≤ (get_size io reply).1.2.2.2 := by
  have hv : 0 ≤ (ioctlVals io).1 ∧ 0 ≤ (ioctlVals io).2.1 ∧
      0 ≤ (ioctlVals io).2.2.1 ∧ 0 ≤ (ioctlVals io).2.2.2 := by
    cases io with
    | none => refine ⟨le_refl 0, le_refl 0, le_refl 0, le_refl 0⟩
    | some q =>
      obtain ⟨r, c, x, y⟩ := q
      exact ⟨Int.natCast_nonneg r, Int.natCast_nonneg c,
        Int.natCast_nonneg x, Int.natCast_nonneg y⟩
  obtain ⟨h1a, h1b⟩ := sizeStep_nonneg
    ((ioctlVals io).1 == 0 || (ioctlVals io).2.1 == 0)
    ((ioctlVals io).1, (ioctlVals io).2.1) csi18req csi8head reply
    hv.1 hv.2.1 (h csi18req)
  obtain ⟨h2a, h2b⟩ := sizeStep_nonneg
    ((ioctlVals io).2.2.1 == 0 || (ioctlVals io).2.2.2 == 0)
    ((ioctlVals io).2.2.2, (ioctlVals io).2.2.1) csi14req csi4head reply
    hv.2.2.2 hv.2.2.1 (h csi14req)
  exact ⟨h1b, h1a, h2b, h2a⟩

/-- Witness for the amended C9: a healthy ioctl and silent terminal. -/
theorem get_size_nonneg_witness :
    0 ≤ (get_size (some (24, 80, 0, 0)) (fun _ => [])).1.1 ∧
    0 ≤ (get_size (some (24, 80, 0, 0)) (fun _ => [])).1.2.1 ∧
    0 ≤ (get_size (some (24, 80, 0, 0)) (fun _ => [])).1.2.2.1 ∧
    0 ≤ (get_size (some (24, 80, 0, 0)) (fun _ => [])).1.2.2.2 :=
  get_size_nonneg (some (24, 80, 0, 0)) (fun _ => [])
    (fun _ h => by simp at h)

/-- Claim C10: a `str` payload is transmitted as its UTF-8 encoding and a
`bytes` payload verbatim: `query` and `write` behave identically on `s` and
on `s.encode('utf-8')`, the conversion at the top of both methods being the
only place the payload type matters. -/
theorem str_and_bytes_payloads_agree (s : String) (b : List Nat)
    (accept : Nat → Nat) (ready : Bool) (input : List Nat) :
    query accept ready input (PyData.ofStr s) =
      query accept ready input (PyData.ofBytes (utf8Encode s)) ∧
    write accept (PyData.ofStr s) =
      write accept (PyData.ofBytes (utf8Encode s)) ∧
    pyToBytes (PyData.ofStr s) = utf8Encode s ∧
    pyToBytes (PyData.ofBytes b) = b :=
  ⟨rfl, rfl, rfl, rfl⟩

end Termlib
